import Mathlib

/-!
Shallow embedding of the Voisus Remote Control Client (VRCC) core described
by `src/C++/vrcc.h`.  The header is a pure interface: it declares the API
functions and documents their contracts, but contains no implementation.
The definitions below therefore model the client core from the spec and
from the header's documented contracts, as explicit state-passing
functions.
-/

/-! ## Live-radio-control (RadCtrl) store -/

/-- Modelled from the spec: values of the generic typed `(name, setting) -> value`
live-radio-control store (`RadCtrl_GetValue{Str,Int,Float}`).  The float
variant is modelled as a rational number; no floating-point arithmetic is
performed anywhere in this development. -/
inductive RCValue where
  | vstr : String → RCValue
  | vint : Int → RCValue
  | vfloat : Rat → RCValue
deriving DecidableEq, Repr

/-- Modelled from the spec: the live-radio-control state — a typed
`(name, setting) -> value` store plus a shared error-version counter and
last-error string (`RadCtrl_Error`, `RadCtrl_ErrorVersion`); the
implementation behind `vrcc.h` is not in the repository. -/
structure RadCtrlState where
  store : List ((String × String) × RCValue)
  errorVersion : Nat
  lastError : String
deriving DecidableEq, Repr

/-- Insert or replace the value bound to `(name, setting)` in the store. -/
def rcStoreSet (store : List ((String × String) × RCValue)) (name setting : String)
    (v : RCValue) : List ((String × String) × RCValue) :=
  if store.any (fun p => decide (p.1 = (name, setting))) then
    store.map (fun p => if p.1 = (name, setting) then ((name, setting), v) else p)
  else store ++ [((name, setting), v)]

/-- Look up the value bound to `(name, setting)`, if any. -/
def rcLookup (s : RadCtrlState) (name setting : String) : Option RCValue :=
  (s.store.find? (fun p => decide (p.1 = (name, setting)))).map Prod.snd

/-- Modelled from the spec: `RadCtrl_GetValueStr` (vrcc.h line 1235) returns the
string value of the setting, or the empty string if not found. -/
def RadCtrl_GetValueStr (s : RadCtrlState) (name setting : String) : String :=
  match rcLookup s name setting with
  | some (RCValue.vstr v) => v
  | _ => ""

/-- Modelled from the spec: `RadCtrl_GetValueInt` (vrcc.h line 1255) returns the
int value of the setting, or -1 if not found. -/
def RadCtrl_GetValueInt (s : RadCtrlState) (name setting : String) : Int :=
  match rcLookup s name setting with
  | some (RCValue.vint v) => v
  | _ => -1

/-- Modelled from the spec: `RadCtrl_GetValueFloat` (vrcc.h line 1267) returns
the float value of the setting, or -1 if not found. -/
def RadCtrl_GetValueFloat (s : RadCtrlState) (name setting : String) : Rat :=
  match rcLookup s name setting with
  | some (RCValue.vfloat v) => v
  | _ => -1

/-- Modelled from the spec: `RadCtrl_Error` (vrcc.h line 1310) returns the error
message of the last radio-control set operation, or the empty string if it
was successful. -/
def RadCtrl_Error (s : RadCtrlState) : String := s.lastError

/-- Modelled from the spec: `RadCtrl_ErrorVersion` (vrcc.h line 1318) returns
the version count of radio-control responses to new settings. -/
def RadCtrl_ErrorVersion (s : RadCtrlState) : Nat := s.errorVersion

/-- Modelled from the spec: the server's response to a `RadCtrl_Set*` request —
either the server accepted the new value or it rejected the request with an
error message. -/
inductive SetOutcome where
  | accepted : SetOutcome
  | rejected : String → SetOutcome
deriving DecidableEq, Repr

/-- Modelled from the spec: the client-side effect of the server's response to a
`RadCtrl_Set*` request (the implementation behind `vrcc.h` is not in the
repository).  Per vrcc.h line 1313 the response counter increments once for
each `RadCtrl_Set*` API call; on acceptance the store is updated and the
error string cleared, on rejection the store is left unchanged and the
error message recorded. -/
def radCtrlApplyResponse (s : RadCtrlState) (name setting : String) (v : RCValue)
    (o : SetOutcome) : RadCtrlState :=
  match o with
  | SetOutcome.accepted =>
      { store := rcStoreSet s.store name setting v
        errorVersion := s.errorVersion + 1
        lastError := "" }
  | SetOutcome.rejected msg =>
      { s with errorVersion := s.errorVersion + 1, lastError := msg }

/-! ## Entity Cache -/

/-- Modelled from the spec: one cached entity — an opaque identifier plus an
attribute snapshot (a field name to field value map). -/
structure Entity where
  id : String
  fields : List (String × String)
deriving DecidableEq, Repr

/-- Modelled from the spec: the entity types whose collections the claims
mention. -/
inductive EntityType where
  | role
  | entityState
  | radio
  | call
  | cloud
  | operators
deriving DecidableEq, Repr

/-- Modelled from the spec: the operation carried by a server-confirmed delta —
add an entity, remove it, or update some of its fields. -/
inductive DeltaOp where
  | add : List (String × String) → DeltaOp
  | remove : DeltaOp
  | update : List (String × String) → DeltaOp
deriving DecidableEq, Repr

/-- Modelled from the spec: an inbound server-confirmed change for one entity,
carrying the peer-supplied change sequence number used for duplicate
detection. -/
structure EntityDelta where
  etype : EntityType
  entityId : String
  seq : Nat
  op : DeltaOp
deriving DecidableEq, Repr

/-- Modelled from the spec: well-formedness of an inbound delta — identifiers
are 32-character opaque strings; a delta whose identifier is not 32
characters is malformed and is dropped. -/
def EntityDelta.valid (d : EntityDelta) : Bool := d.entityId.length == 32

/-- Set one field of an attribute snapshot, replacing an existing binding or
appending a new one. -/
def setField (fields : List (String × String)) (k v : String) :
    List (String × String) :=
  if fields.any (fun p => decide (p.1 = k)) then
    fields.map (fun p => if p.1 = k then (k, v) else p)
  else fields ++ [(k, v)]

/-- Apply a list of field updates to an attribute snapshot. -/
def applyFields (fields : List (String × String)) (fs : List (String × String)) :
    List (String × String) :=
  fs.foldl (fun acc kv => setField acc kv.1 kv.2) fields

/-- Modelled from the spec: the effect of a delta's operation on the entity list
of its target collection. -/
def applyOp (ents : List Entity) (d : EntityDelta) : List Entity :=
  match d.op with
  | DeltaOp.add fs =>
      if ents.any (fun e => decide (e.id = d.entityId)) then
        ents.map (fun e =>
          if e.id = d.entityId then { e with fields := applyFields e.fields fs } else e)
      else ents ++ [{ id := d.entityId, fields := applyFields [] fs }]
  | DeltaOp.remove => ents.filter (fun e => decide (¬ e.id = d.entityId))
  | DeltaOp.update fs =>
      ents.map (fun e =>
        if e.id = d.entityId then { e with fields := applyFields e.fields fs } else e)

/-- Modelled from the spec: one entity type's collection — the ordered entity
list, its monotonic version counter, and the last applied peer change
sequence number used to drop stale or duplicate deltas. -/
structure EntityCollection where
  entities : List Entity
  version : Nat
  lastSeq : Nat
deriving DecidableEq, Repr

/-- Modelled from the spec: `apply(delta)` on one collection — a malformed delta
is dropped, a stale or duplicate delta (sequence number not newer than the
last applied one) is dropped, and an applied delta mutates the entity list
and increments the version counter exactly once. -/
def EntityCollection.apply (c : EntityCollection) (d : EntityDelta) : EntityCollection :=
  if d.valid = true ∧ c.lastSeq < d.seq then
    { entities := applyOp c.entities d, version := c.version + 1, lastSeq := d.seq }
  else c

/-- Apply a list of deltas in transport order. -/
def applyAll (c : EntityCollection) (ds : List EntityDelta) : EntityCollection :=
  ds.foldl EntityCollection.apply c

/-- Modelled from the spec: the whole Entity Cache — one collection per entity
type. -/
structure EntityCache where
  roles : EntityCollection
  entityStates : EntityCollection
  radios : EntityCollection
  calls : EntityCollection
  clouds : EntityCollection
  operators : EntityCollection
deriving DecidableEq, Repr

/-- Modelled from the spec: the Update Pump's delta-application path dispatches
each inbound delta to the collection of its entity type. -/
def EntityCache.applyDelta (s : EntityCache) (d : EntityDelta) : EntityCache :=
  match d.etype with
  | EntityType.role => { s with roles := s.roles.apply d }
  | EntityType.entityState => { s with entityStates := s.entityStates.apply d }
  | EntityType.radio => { s with radios := s.radios.apply d }
  | EntityType.call => { s with calls := s.calls.apply d }
  | EntityType.cloud => { s with clouds := s.clouds.apply d }
  | EntityType.operators => { s with operators := s.operators.apply d }

/-! ## List/Iterator Façade -/

/-- Modelled from the spec: the `*_ListCount` accessors return the number of
entries of a collection. -/
def listCount (ids : List String) : Nat := ids.length

/-- Modelled from the spec: dense index access (`Role_Name`, `Role_Id`,
`Radio_Name`, ...) — a valid index returns the entry, any out-of-range
index (negative or one past the end and beyond) returns the empty-string
sentinel; the accessor is total. -/
def atIndex (ids : List String) (i : Int) : String :=
  if i < 0 then "" else ids.getD i.toNat ""

/-- The identifier sequence of a collection. -/
def collIds (c : EntityCollection) : List String := c.entities.map Entity.id

/-- Modelled from the spec: cursor access `first()` (`Cloud_IDFirst`,
`Call_IDFirst`, ...) — the first identifier, or the empty-string sentinel
if the collection is empty. -/
def idFirst (ids : List String) : String := ids.headD ""

/-- Modelled from the spec: cursor access `next(prevId)` (`Cloud_IDNext`,
`Call_IDNext`, ...) — the identifier following `prev`, or the empty-string
sentinel when the cursor is exhausted. -/
def idNext : List String → String → String
  | [], _ => ""
  | x :: rest, prev => if x = prev then rest.headD "" else idNext rest prev

/-- Cursor enumeration: repeatedly follow `idNext` from a current identifier
until the empty-string sentinel, with explicit fuel. -/
def cursorEnum (ids : List String) : Nat → String → List String
  | 0, _ => []
  | fuel + 1, cur => if cur = "" then [] else cur :: cursorEnum ids fuel (idNext ids cur)

/-- Cursor enumeration of a whole collection: start from `idFirst` and follow
`idNext` until the empty-string sentinel. -/
def cursorEnumAll (ids : List String) : List String :=
  cursorEnum ids (listCount ids) (idFirst ids)

/-- Dense enumeration of a whole collection: `count()` followed by `at(i)` for
`i` in `[0, count)`. -/
def denseEnum (ids : List String) : List String :=
  (List.range (listCount ids)).map (fun i : Nat => atIndex ids (i : Int))

/-! ## Pending/Active/Set Triad Manager -/

/-- Modelled from the spec: a triad field — the last locally requested value
(`setValue`, updates immediately) and the server-confirmed value
(`activeValue`). -/
structure Triad where
  setValue : String
  activeValue : String
deriving DecidableEq, Repr

/-- Modelled from the spec: `setX(v)` updates `setValue` synchronously and
transmits the request; `activeValue` is untouched until the server
replies. -/
def Triad.set (t : Triad) (v : String) : Triad := { t with setValue := v }

/-- Modelled from the spec: the server messages that resolve an in-flight triad
request — a confirmation carrying the confirmed value, a rejection, or a
disconnect. -/
inductive TriadEvent where
  | confirm : String → TriadEvent
  | reject : TriadEvent
  | disconnect : TriadEvent
deriving DecidableEq, Repr

/-- Modelled from the spec: the Update Pump's handling of a triad-resolving
server message — a confirmation updates `activeValue` to the confirmed
value; a rejection or disconnect resets `setValue` to match
`activeValue`. -/
def Triad.onEvent (t : Triad) (e : TriadEvent) : Triad :=
  match e with
  | TriadEvent.confirm v => { t with activeValue := v }
  | TriadEvent.reject => { t with setValue := t.activeValue }
  | TriadEvent.disconnect => { t with setValue := t.activeValue }

/-- Modelled from the spec: the per-field triads tracked by the client (role,
entity state, radio net); triads are independent per field. -/
structure TriadState where
  role : Triad
  entityState : Triad
  net : Triad
deriving DecidableEq, Repr

/-- Modelled from the spec: `Role_SetRole` (vrcc.h line 263) — requests a new
role; the role triad's `setValue` (observable via `Role_IdSet`) updates
immediately, nothing else changes locally. -/
def Role_SetRole (s : TriadState) (roleId : String) : TriadState :=
  { s with role := s.role.set roleId }

/-- Modelled from the spec: `EntityState_SetEntityState` (vrcc.h line 341) —
requests a new entity state; the entity-state triad's `setValue`
(observable via `EntityState_IdSet`) updates immediately, nothing else
changes locally. -/
def EntityState_SetEntityState (s : TriadState) (esId : String) : TriadState :=
  { s with entityState := s.entityState.set esId }

/-! ## Call Signaling State Machine -/

/-- Modelled from the spec: the progress states of an endpoint within a call. -/
inductive CallProgress where
  | signaling
  | connected
  | holding
  | rejectedState
  | timeout
  | ended
deriving DecidableEq, Repr

/-- Modelled from the spec: one endpoint membership of a call, carrying its
progress state. -/
structure CallEndpoint where
  id : String
  progress : CallProgress
deriving DecidableEq, Repr

/-- Modelled from the spec: a call — its identifier and its mutable set of
endpoint memberships. -/
structure Call where
  id : String
  endpoints : List CallEndpoint
deriving DecidableEq, Repr

/-- Modelled from the spec: `Call_LeaveRequest` (vrcc.h line 1097) — only
endpoints whose call state is Signaling leave the call; endpoints in
Connected and Holding states ignore the request. -/
def Call_LeaveRequest (c : Call) (epId : String) : Call :=
  let keep : CallEndpoint → Bool :=
    fun ep => decide (¬ (ep.id = epId ∧ ep.progress = CallProgress.signaling))
  { c with endpoints := c.endpoints.filter keep }

/-! ## Theorems -/

/-- Claim C1, counterexample: the claim asserts the error counter is bumped
only on failures, never on a successful set; but per vrcc.h line 1313 the
counter increments once for each `RadCtrl_Set*` API call, so a successful
set of `("R2", "freq")` to 30000000 from the empty store bumps the
counter. -/
theorem C1_counterexample :
    RadCtrl_ErrorVersion
        (radCtrlApplyResponse ⟨[], 0, ""⟩ "R2" "freq" (RCValue.vint 30000000)
          SetOutcome.accepted)
      ≠ RadCtrl_ErrorVersion (⟨[], 0, ""⟩ : RadCtrlState) := by
  decide

/-- Claim C1 (amended): for every radio-control set request the server
rejects, the stored setting value observable via `RadCtrl_GetValueInt` is
unchanged, the `RadCtrl_ErrorVersion` counter increments, and
`RadCtrl_Error` returns a non-empty error string; after a successful set
the error string is empty — and the counter increments once per `Set*`
response, on success as well as on failure. -/
theorem C1_radctrl_error_protocol (s : RadCtrlState) (name setting : String)
    (v : RCValue) (msg : String) (hmsg : msg ≠ "") :
    RadCtrl_GetValueInt
        (radCtrlApplyResponse s name setting v (SetOutcome.rejected msg)) name setting
      = RadCtrl_GetValueInt s name setting ∧
    RadCtrl_ErrorVersion
        (radCtrlApplyResponse s name setting v (SetOutcome.rejected msg))
      = RadCtrl_ErrorVersion s + 1 ∧
    RadCtrl_Error (radCtrlApplyResponse s name setting v (SetOutcome.rejected msg)) ≠ "" ∧
    RadCtrl_Error (radCtrlApplyResponse s name setting v SetOutcome.accepted) = "" ∧
    RadCtrl_ErrorVersion (radCtrlApplyResponse s name setting v SetOutcome.accepted)
      = RadCtrl_ErrorVersion s + 1 :=
  ⟨rfl, rfl, hmsg, rfl, rfl⟩

/-- Witness for claim C1's amended theorem at the concrete rejected request
`RadCtrl_SetValueInt "R2" "freq" 30000000` against a store holding
25000000. -/
theorem C1_radctrl_error_protocol_witness :
    ("rejected by server" : String) ≠ "" ∧
    (RadCtrl_GetValueInt
        (radCtrlApplyResponse ⟨[(("R2", "freq"), RCValue.vint 25000000)], 0, ""⟩
          "R2" "freq" (RCValue.vint 30000000) (SetOutcome.rejected "rejected by server"))
        "R2" "freq"
      = RadCtrl_GetValueInt (⟨[(("R2", "freq"), RCValue.vint 25000000)], 0, ""⟩ : RadCtrlState)
          "R2" "freq" ∧
    RadCtrl_ErrorVersion
        (radCtrlApplyResponse ⟨[(("R2", "freq"), RCValue.vint 25000000)], 0, ""⟩
          "R2" "freq" (RCValue.vint 30000000) (SetOutcome.rejected "rejected by server"))
      = RadCtrl_ErrorVersion (⟨[(("R2", "freq"), RCValue.vint 25000000)], 0, ""⟩ : RadCtrlState) + 1 ∧
    RadCtrl_Error
        (radCtrlApplyResponse ⟨[(("R2", "freq"), RCValue.vint 25000000)], 0, ""⟩
          "R2" "freq" (RCValue.vint 30000000) (SetOutcome.rejected "rejected by server")) ≠ "" ∧
    RadCtrl_Error
        (radCtrlApplyResponse ⟨[(("R2", "freq"), RCValue.vint 25000000)], 0, ""⟩
          "R2" "freq" (RCValue.vint 30000000) SetOutcome.accepted) = "" ∧
    RadCtrl_ErrorVersion
        (radCtrlApplyResponse ⟨[(("R2", "freq"), RCValue.vint 25000000)], 0, ""⟩
          "R2" "freq" (RCValue.vint 30000000) SetOutcome.accepted)
      = RadCtrl_ErrorVersion (⟨[(("R2", "freq"), RCValue.vint 25000000)], 0, ""⟩ : RadCtrlState) + 1) :=
  ⟨by decide, C1_radctrl_error_protocol _ "R2" "freq" _ "rejected by server" (by decide)⟩

/-- Claim C10: for every radio name and setting name whose pair is not present
in the live-radio-control store, `RadCtrl_GetValueInt` and
`RadCtrl_GetValueFloat` return -1 (while the string accessor returns the
empty string), so a stored value of -1 is indistinguishable from
"not found" at this interface. -/
theorem C10_radctrl_missing_value_sentinel (s : RadCtrlState) (name setting : String)
    (h : rcLookup s name setting = none) :
    RadCtrl_GetValueInt s name setting = -1 ∧
    RadCtrl_GetValueFloat s name setting = -1 ∧
    RadCtrl_GetValueStr s name setting = "" ∧
    RadCtrl_GetValueInt ⟨[((name, setting), RCValue.vint (-1))], 0, ""⟩ name setting
      = RadCtrl_GetValueInt s name setting := by
  have hstored :
      RadCtrl_GetValueInt ⟨[((name, setting), RCValue.vint (-1))], 0, ""⟩ name setting
        = -1 := by
    simp [RadCtrl_GetValueInt, rcLookup, List.find?]
  have h1 : RadCtrl_GetValueInt s name setting = -1 := by simp [RadCtrl_GetValueInt, h]
  have h2 : RadCtrl_GetValueFloat s name setting = -1 := by simp [RadCtrl_GetValueFloat, h]
  have h3 : RadCtrl_GetValueStr s name setting = "" := by simp [RadCtrl_GetValueStr, h]
  exact ⟨h1, h2, h3, by rw [hstored, h1]⟩

/-- Witness for claim C10 at the empty store and the pair ("R2", "freq"). -/
theorem C10_radctrl_missing_value_sentinel_witness :
    rcLookup (⟨[], 0, ""⟩ : RadCtrlState) "R2" "freq" = none ∧
    (RadCtrl_GetValueInt (⟨[], 0, ""⟩ : RadCtrlState) "R2" "freq" = -1 ∧
    RadCtrl_GetValueFloat (⟨[], 0, ""⟩ : RadCtrlState) "R2" "freq" = -1 ∧
    RadCtrl_GetValueStr (⟨[], 0, ""⟩ : RadCtrlState) "R2" "freq" = "" ∧
    RadCtrl_GetValueInt ⟨[(("R2", "freq"), RCValue.vint (-1))], 0, ""⟩ "R2" "freq"
      = RadCtrl_GetValueInt (⟨[], 0, ""⟩ : RadCtrlState) "R2" "freq") :=
  ⟨by decide, C10_radctrl_missing_value_sentinel _ "R2" "freq" (by decide)⟩

/-- Claim C2: for every triad field, after `setX(v)` the triad's `setValue`
updates immediately; once the server's reply to the request arrives
(confirmation of `v`, rejection, or disconnect), either the server
confirmed and `activeValue = v`, or `setValue` has been reset to equal
`activeValue` — the pair is never left permanently diverged. -/
theorem C2_triad_convergence (t : Triad) (v : String) (e : TriadEvent)
    (h : e = TriadEvent.confirm v ∨ e = TriadEvent.reject ∨ e = TriadEvent.disconnect) :
    (Triad.set t v).setValue = v ∧
    (((Triad.set t v).onEvent e).activeValue = v ∨
      ((Triad.set t v).onEvent e).setValue = ((Triad.set t v).onEvent e).activeValue) := by
  rcases h with h | h | h <;> subst h <;> simp [Triad.set, Triad.onEvent]

/-- Witness for claim C2: a rejected `setRole` request from the empty triad. -/
theorem C2_triad_convergence_witness :
    (TriadEvent.reject = TriadEvent.confirm "R1" ∨ TriadEvent.reject = TriadEvent.reject ∨
      TriadEvent.reject = TriadEvent.disconnect) ∧
    ((Triad.set ⟨"", ""⟩ "R1").setValue = "R1" ∧
      (((Triad.set ⟨"", ""⟩ "R1").onEvent TriadEvent.reject).activeValue = "R1" ∨
        ((Triad.set ⟨"", ""⟩ "R1").onEvent TriadEvent.reject).setValue
          = ((Triad.set (⟨"", ""⟩ : Triad) "R1").onEvent TriadEvent.reject).activeValue)) :=
  ⟨by decide, C2_triad_convergence _ _ _ (by decide)⟩

/-- Claim C7: issuing a set on one triad field changes only that field's own
triad `setValue`; every other field's triad — in particular the
Entity-State triad — is unchanged by `Role_SetRole`, and conversely
`EntityState_SetEntityState` leaves the Role triad unchanged. -/
theorem C7_triad_frame (s : TriadState) (r v : String) :
    (Role_SetRole s r).entityState = s.entityState ∧
    (Role_SetRole s r).net = s.net ∧
    (Role_SetRole s r).role.activeValue = s.role.activeValue ∧
    (Role_SetRole s r).role.setValue = r ∧
    (EntityState_SetEntityState s v).role = s.role ∧
    (EntityState_SetEntityState s v).net = s.net ∧
    (EntityState_SetEntityState s v).entityState.activeValue = s.entityState.activeValue :=
  ⟨rfl, rfl, rfl, rfl, rfl, rfl, rfl⟩

/-- Helper: any out-of-range index (negative, or at least the count) yields the
empty-string sentinel. -/
theorem atIndex_out_of_range (ids : List String) (i : Int)
    (h : i < 0 ∨ (listCount ids : Int) ≤ i) : atIndex ids i = "" := by
  unfold atIndex
  rcases h with h | h
  · rw [if_pos h]
  · have hlen : (ids.length : Int) ≤ i := h
    rw [if_neg (by omega)]
    exact List.getD_eq_default _ _ (by omega)

/-- Claim C9: for every dense-indexed collection, reading one past the last
valid index — `atIndex ids (listCount ids)` — returns the empty-string
not-found sentinel, and the accessor is total: every out-of-range integer
index (negative or beyond the count) also returns the sentinel. -/
theorem C9_dense_index_total_sentinel (ids : List String) (i : Int)
    (h : i < 0 ∨ (listCount ids : Int) ≤ i) :
    atIndex ids i = "" ∧ atIndex ids (listCount ids) = "" :=
  ⟨atIndex_out_of_range ids i h,
    atIndex_out_of_range ids (listCount ids) (Or.inr (le_refl _))⟩

/-- Witness for claim C9 at the one-element collection and index 5. -/
theorem C9_dense_index_total_sentinel_witness :
    ((5 : Int) < 0 ∨ (listCount ["a"] : Int) ≤ 5) ∧
    (atIndex ["a"] 5 = "" ∧ atIndex ["a"] (listCount ["a"]) = "") :=
  ⟨by decide, C9_dense_index_total_sentinel ["a"] 5 (by decide)⟩

/-- Claim C6: for every cache state and every malformed inbound delta, applying
the delta leaves the entire Entity Cache unchanged — the delta is dropped,
no entity is touched and no version counter moves. -/
theorem C6_malformed_delta_dropped (s : EntityCache) (d : EntityDelta)
    (h : d.valid = false) : s.applyDelta d = s := by
  have hc : ∀ c : EntityCollection, c.apply d = c := by
    intro c
    unfold EntityCollection.apply
    rw [if_neg]
    simp [h]
  obtain ⟨et, eid, sq, op⟩ := d
  cases et <;> simp [EntityCache.applyDelta, hc]

/-- Witness for claim C6: a delta whose identifier is not 32 characters long is
dropped by the empty cache. -/
theorem C6_malformed_delta_dropped_witness :
    EntityDelta.valid ⟨EntityType.role, "bad", 1, DeltaOp.remove⟩ = false ∧
    EntityCache.applyDelta
        ⟨⟨[], 0, 0⟩, ⟨[], 0, 0⟩, ⟨[], 0, 0⟩, ⟨[], 0, 0⟩, ⟨[], 0, 0⟩, ⟨[], 0, 0⟩⟩
        ⟨EntityType.role, "bad", 1, DeltaOp.remove⟩
      = ⟨⟨[], 0, 0⟩, ⟨[], 0, 0⟩, ⟨[], 0, 0⟩, ⟨[], 0, 0⟩, ⟨[], 0, 0⟩, ⟨[], 0, 0⟩⟩ :=
  ⟨by decide, C6_malformed_delta_dropped _ _ (by decide)⟩

/-- Helper: a stale delta (sequence number not newer than the last applied
one) is dropped. -/
theorem apply_stale (c : EntityCollection) (d : EntityDelta) (h : d.seq ≤ c.lastSeq) :
    c.apply d = c := by
  unfold EntityCollection.apply
  rw [if_neg]
  rintro ⟨-, hlt⟩
  omega

/-- Helper: one `apply` never decreases the version counter. -/
theorem version_le_apply (c : EntityCollection) (d : EntityDelta) :
    c.version ≤ (c.apply d).version := by
  unfold EntityCollection.apply
  split
  · exact Nat.le_succ _
  · exact Nat.le_refl _

/-- Helper: applying any delta sequence in transport order never decreases the
version counter. -/
theorem version_le_applyAll (c : EntityCollection) (ds : List EntityDelta) :
    c.version ≤ (applyAll c ds).version := by
  induction ds generalizing c with
  | nil => exact Nat.le_refl _
  | cons d ds ih => exact le_trans (version_le_apply c d) (ih (c.apply d))

/-- Claim C3: for every entity collection the version counter is monotonic
non-decreasing across any sequence of deltas applied in transport order
(any two observation points during one connection), and it strictly
increases whenever an apply observably changes the collection. -/
theorem C3_version_monotonic (c : EntityCollection) (ds : List EntityDelta)
    (d : EntityDelta) (hchg : (c.apply d).entities ≠ c.entities) :
    c.version ≤ (applyAll c ds).version ∧ c.version < (c.apply d).version := by
  refine ⟨version_le_applyAll c ds, ?_⟩
  by_cases hcond : d.valid = true ∧ c.lastSeq < d.seq
  · unfold EntityCollection.apply
    rw [if_pos hcond]
    exact Nat.lt_succ_self _
  · exfalso
    apply hchg
    unfold EntityCollection.apply
    rw [if_neg hcond]

/-- Witness for claim C3: adding one entity to the empty role collection bumps
the version counter. -/
theorem C3_version_monotonic_witness :
    (EntityCollection.apply ⟨[], 0, 0⟩
        ⟨EntityType.role, "abcdefgh12345678abcdefgh12345678", 1,
          DeltaOp.add [("name", "R1")]⟩).entities
      ≠ (⟨[], 0, 0⟩ : EntityCollection).entities ∧
    ((⟨[], 0, 0⟩ : EntityCollection).version
        ≤ (applyAll ⟨[], 0, 0⟩
            [⟨EntityType.role, "abcdefgh12345678abcdefgh12345678", 1,
              DeltaOp.add [("name", "R1")]⟩]).version ∧
      (⟨[], 0, 0⟩ : EntityCollection).version
        < (EntityCollection.apply ⟨[], 0, 0⟩
            ⟨EntityType.role, "abcdefgh12345678abcdefgh12345678", 1,
              DeltaOp.add [("name", "R1")]⟩).version) :=
  ⟨by decide, C3_version_monotonic _ _ _ (by decide)⟩

/-- Claim C4: re-applying an already-applied delta (same peer-supplied change
sequence number) leaves the collection and its version counter unchanged,
and a single apply of a delta — even one changing multiple fields of one
entity — increments the version counter exactly once. -/
theorem C4_duplicate_delta_idempotent (c : EntityCollection) (d : EntityDelta)
    (hv : d.valid = true) (hs : c.lastSeq < d.seq) :
    (c.apply d).apply d = c.apply d ∧
    ((c.apply d).apply d).version = (c.apply d).version ∧
    (c.apply d).version = c.version + 1 := by
  have h1 : c.apply d
      = { entities := applyOp c.entities d, version := c.version + 1, lastSeq := d.seq } := by
    unfold EntityCollection.apply
    rw [if_pos ⟨hv, hs⟩]
  have h2 : (c.apply d).apply d = c.apply d :=
    apply_stale _ _ (by rw [h1])
  exact ⟨h2, by rw [h2], by rw [h1]⟩

/-- Witness for claim C4: a two-field update delta applied to a one-entity
collection, then delivered a second time. -/
theorem C4_duplicate_delta_idempotent_witness :
    EntityDelta.valid
        ⟨EntityType.radio, "abcdefgh12345678abcdefgh12345678", 1,
          DeltaOp.update [("freq", "30000000"), ("power", "HIGH")]⟩ = true ∧
    (⟨[⟨"abcdefgh12345678abcdefgh12345678", []⟩], 0, 0⟩ : EntityCollection).lastSeq
      < (⟨EntityType.radio, "abcdefgh12345678abcdefgh12345678", 1,
          DeltaOp.update [("freq", "30000000"), ("power", "HIGH")]⟩ : EntityDelta).seq ∧
    ((EntityCollection.apply
        (EntityCollection.apply ⟨[⟨"abcdefgh12345678abcdefgh12345678", []⟩], 0, 0⟩
          ⟨EntityType.radio, "abcdefgh12345678abcdefgh12345678", 1,
            DeltaOp.update [("freq", "30000000"), ("power", "HIGH")]⟩)
        ⟨EntityType.radio, "abcdefgh12345678abcdefgh12345678", 1,
          DeltaOp.update [("freq", "30000000"), ("power", "HIGH")]⟩
      = EntityCollection.apply ⟨[⟨"abcdefgh12345678abcdefgh12345678", []⟩], 0, 0⟩
          ⟨EntityType.radio, "abcdefgh12345678abcdefgh12345678", 1,
            DeltaOp.update [("freq", "30000000"), ("power", "HIGH")]⟩) ∧
      ((EntityCollection.apply
          (EntityCollection.apply ⟨[⟨"abcdefgh12345678abcdefgh12345678", []⟩], 0, 0⟩
            ⟨EntityType.radio, "abcdefgh12345678abcdefgh12345678", 1,
              DeltaOp.update [("freq", "30000000"), ("power", "HIGH")]⟩)
          ⟨EntityType.radio, "abcdefgh12345678abcdefgh12345678", 1,
            DeltaOp.update [("freq", "30000000"), ("power", "HIGH")]⟩).version
        = (EntityCollection.apply ⟨[⟨"abcdefgh12345678abcdefgh12345678", []⟩], 0, 0⟩
            ⟨EntityType.radio, "abcdefgh12345678abcdefgh12345678", 1,
              DeltaOp.update [("freq", "30000000"), ("power", "HIGH")]⟩).version ∧
        (EntityCollection.apply ⟨[⟨"abcdefgh12345678abcdefgh12345678", []⟩], 0, 0⟩
            ⟨EntityType.radio, "abcdefgh12345678abcdefgh12345678", 1,
              DeltaOp.update [("freq", "30000000"), ("power", "HIGH")]⟩).version
          = (⟨[⟨"abcdefgh12345678abcdefgh12345678", []⟩], 0, 0⟩ : EntityCollection).version + 1)) :=
  ⟨by decide, by decide, C4_duplicate_delta_idempotent _ _ (by decide) (by decide)⟩

/-- Claim C8: a leave request on a `(call, endpoint)` pair whose endpoints with
that identifier are all in the Connected or Holding state is a no-op on the
call — state and membership are unchanged — and in general only endpoints
in the Signaling state are ever removed by a leave request. -/
theorem C8_leave_request_ignores_connected (c : Call) (epId : String)
    (h : ∀ ep ∈ c.endpoints, ep.id = epId →
      ep.progress = CallProgress.connected ∨ ep.progress = CallProgress.holding) :
    Call_LeaveRequest c epId = c ∧
    ∀ ep ∈ c.endpoints, ep ∉ (Call_LeaveRequest c epId).endpoints →
      ep.progress = CallProgress.signaling := by
  constructor
  · simp only [Call_LeaveRequest]
    have hfil : c.endpoints.filter
        (fun ep => decide (¬ (ep.id = epId ∧ ep.progress = CallProgress.signaling)))
        = c.endpoints := by
      rw [List.filter_eq_self]
      intro a ha
      simp only [decide_eq_true_eq]
      rintro ⟨hid, hsig⟩
      rcases h a ha hid with hpc | hph
      · rw [hpc] at hsig
        exact absurd hsig (by decide)
      · rw [hph] at hsig
        exact absurd hsig (by decide)
    rw [hfil]
  · intro ep hmem hnot
    by_contra hns
    apply hnot
    simp only [Call_LeaveRequest, List.mem_filter]
    refine ⟨hmem, ?_⟩
    simp only [decide_eq_true_eq]
    rintro ⟨hid, hsig⟩
    exact hns hsig

/-- Witness for claim C8: a leave request for a connected endpoint leaves the
call unchanged. -/
theorem C8_leave_request_ignores_connected_witness :
    (∀ ep ∈ (⟨"c1", [⟨"e1", CallProgress.connected⟩]⟩ : Call).endpoints, ep.id = "e1" →
      ep.progress = CallProgress.connected ∨ ep.progress = CallProgress.holding) ∧
    (Call_LeaveRequest ⟨"c1", [⟨"e1", CallProgress.connected⟩]⟩ "e1"
        = (⟨"c1", [⟨"e1", CallProgress.connected⟩]⟩ : Call) ∧
      ∀ ep ∈ (⟨"c1", [⟨"e1", CallProgress.connected⟩]⟩ : Call).endpoints,
        ep ∉ (Call_LeaveRequest ⟨"c1", [⟨"e1", CallProgress.connected⟩]⟩ "e1").endpoints →
          ep.progress = CallProgress.signaling) :=
  ⟨by decide, C8_leave_request_ignores_connected _ "e1" (by decide)⟩

/-- Helper: `idNext` on a list split around the cursor returns the head of the
suffix (or the sentinel), provided the cursor does not occur earlier. -/
theorem idNext_append (pre rest : List String) (cur : String) (h : cur ∉ pre) :
    idNext (pre ++ cur :: rest) cur = rest.headD "" := by
  induction pre with
  | nil => simp [idNext]
  | cons x xs ih =>
      have h1 : ¬ x = cur := by
        intro hxc
        subst hxc
        exact h (List.mem_cons_self x xs)
      have h2 : cur ∉ xs := fun hm => h (List.mem_cons_of_mem x hm)
      simpa [idNext, h1] using ih h2

/-- Helper: starting the cursor walk at the head of any suffix of a
duplicate-free, sentinel-free identifier list enumerates exactly that
suffix. -/
theorem cursorEnum_suffix :
    ∀ (rest pre : List String) (fuel : Nat), (pre ++ rest).Nodup →
      "" ∉ pre ++ rest → rest.length ≤ fuel →
      cursorEnum (pre ++ rest) fuel (rest.headD "") = rest := by
  intro rest
  induction rest with
  | nil =>
      intro pre fuel _ _ _
      cases fuel <;> simp [cursorEnum]
  | cons cur rest2 ih =>
      intro pre fuel hnd hne hfuel
      cases fuel with
      | zero => simp at hfuel
      | succ f =>
          have hcur_mem : cur ∈ pre ++ cur :: rest2 := by simp
          have hcurne : ¬ cur = "" := by
            intro hq
            subst hq
            exact hne hcur_mem
          have hnotpre : cur ∉ pre := by
            rcases List.nodup_append.mp hnd with ⟨-, -, hdisj⟩
            intro hin
            exact hdisj hin (List.mem_cons_self cur rest2)
          have hf2 : rest2.length ≤ f := by
            simp only [List.length_cons] at hfuel
            omega
          simp only [List.headD_cons, cursorEnum]
          rw [if_neg hcurne, idNext_append pre rest2 cur hnotpre]
          have heq : pre ++ cur :: rest2 = (pre ++ [cur]) ++ rest2 := by simp
          rw [heq, ih (pre ++ [cur]) f (by rw [← heq]; exact hnd)
            (by rw [← heq]; exact hne) hf2]

/-- Helper: cursor enumeration of a duplicate-free, sentinel-free identifier
list yields the whole list. -/
theorem cursorEnumAll_eq_self (ids : List String) (hnd : ids.Nodup)
    (hne : "" ∉ ids) : cursorEnumAll ids = ids := by
  have h := cursorEnum_suffix ids [] ids.length (by simpa) (by simpa) (le_refl _)
  simpa [cursorEnumAll, idFirst, listCount] using h

/-- Helper: mapping `atIndex` over the index range recovers the list. -/
theorem map_atIndex_range (l : List String) :
    (List.range l.length).map (fun i : Nat => atIndex l (i : Int)) = l := by
  induction l with
  | nil => rfl
  | cons x xs ih =>
      have hfun : ((fun i : Nat => atIndex (x :: xs) (i : Int)) ∘ Nat.succ)
          = (fun i : Nat => atIndex xs (i : Int)) := by
        funext i
        show atIndex (x :: xs) ((i + 1 : Nat) : Int) = atIndex xs ((i : Nat) : Int)
        unfold atIndex
        rw [if_neg (by omega), if_neg (by omega)]
        simp
      rw [List.length_cons, List.range_succ_eq_map, List.map_cons, List.map_map,
        hfun, ih]
      show atIndex (x :: xs) ((0 : Nat) : Int) :: xs = x :: xs
      unfold atIndex
      rw [if_neg (by omega)]
      simp

/-- Helper: dense enumeration yields the whole identifier list. -/
theorem denseEnum_eq_self (ids : List String) : denseEnum ids = ids := by
  unfold denseEnum listCount
  exact map_atIndex_range ids

/-- Claim C5: for every entity collection whose identifiers are duplicate-free
and never the empty-string sentinel, and with no mutation between reads,
dense enumeration (`count()` then `at(i)` for `i` in `[0, count)`) and
cursor enumeration (`first()` then repeated `next()` until the sentinel)
produce the same set of identifiers. -/
theorem C5_enumeration_agreement (c : EntityCollection) (x : String)
    (hnd : (collIds c).Nodup) (hne : "" ∉ collIds c) :
    x ∈ denseEnum (collIds c) ↔ x ∈ cursorEnumAll (collIds c) := by
  rw [denseEnum_eq_self, cursorEnumAll_eq_self (collIds c) hnd hne]

/-- Witness for claim C5 at a concrete two-entity collection. -/
theorem C5_enumeration_agreement_witness :
    (collIds ⟨[⟨"a", []⟩, ⟨"b", []⟩], 0, 0⟩).Nodup ∧
    "" ∉ collIds ⟨[⟨"a", []⟩, ⟨"b", []⟩], 0, 0⟩ ∧
    ("a" ∈ denseEnum (collIds ⟨[⟨"a", []⟩, ⟨"b", []⟩], 0, 0⟩) ↔
      "a" ∈ cursorEnumAll (collIds ⟨[⟨"a", []⟩, ⟨"b", []⟩], 0, 0⟩)) :=
  ⟨by decide, by decide, C5_enumeration_agreement _ "a" (by decide) (by decide)⟩
